import Mathlib

/-!
Shallow embedding of the descriptor-validation core of
`src/python/src/FastAPI/schemas/researches.py`.

Python floats on the inputs of interest behave as exact rational
arithmetic, so coordinates are modelled as pairs of rationals; the
pydantic validators, which raise `ValueError`, are modelled as
`Except`-valued functions returning an explicit error kind, one per
distinct `raise` site, in the order the validators run (field
validators before model validators, and the model-validator checks in
their source order).
-/

/-- A planar point, Python's `tuple[float, float]`. -/
abbrev Point : Type := ℚ × ℚ

/-- `orientation(p, q, r)` from `has_self_intersections.do_intersect`:
`val = (q[1]-p[1])*(r[0]-q[0]) - (q[0]-p[0])*(r[1]-q[1])`;
returns 0 when `val == 0`, 1 when `val > 0`, else 2. -/
def orientation (p q r : Point) : ℕ :=
  let val := (q.2 - p.2) * (r.1 - q.1) - (q.1 - p.1) * (r.2 - q.2)
  if val = 0 then 0
  else if val > 0 then 1
  else 2

/-- `on_segment(p, q, r)`: `q` lies within the axis-aligned bounding
box of `p` and `r` (the four chained comparisons of the source). -/
def on_segment (p q r : Point) : Bool :=
  decide (q.1 ≤ max p.1 r.1 ∧ q.1 ≥ min p.1 r.1 ∧
          q.2 ≤ max p.2 r.2 ∧ q.2 ≥ min p.2 r.2)

/-- `do_intersect(p1, q1, p2, q2)` from `has_self_intersections`:
the orientation-based segment-intersection test with its four
collinear fallback branches. -/
def do_intersect (p1 q1 p2 q2 : Point) : Bool :=
  let o1 := orientation p1 q1 p2
  let o2 := orientation p1 q1 q2
  let o3 := orientation p2 q2 p1
  let o4 := orientation p2 q2 q1
  if o1 ≠ o2 ∧ o3 ≠ o4 then true
  else if o1 = 0 ∧ on_segment p1 p2 q1 then true
  else if o2 = 0 ∧ on_segment p1 q2 q1 then true
  else if o3 = 0 ∧ on_segment p2 p1 q2 then true
  else if o4 = 0 ∧ on_segment p2 q1 q2 then true
  else false

/-- `PolygonDescription.has_self_intersections`: for `i` in
`range(n-2)` and `j` in `range(i+1, n-1)`, test
`do_intersect(coords[i], coords[i+1], coords[j], coords[j+1])`.
All indices reached by the loops are in range, so the `getD`
default is never used. -/
def has_self_intersections (coordinates : List Point) : Bool :=
  let n := coordinates.length
  (List.range (n - 2)).any fun i =>
    (List.range' (i + 1) (n - 1 - (i + 1))).any fun j =>
      do_intersect (coordinates.getD i (0, 0)) (coordinates.getD (i + 1) (0, 0))
        (coordinates.getD j (0, 0)) (coordinates.getD (j + 1) (0, 0))

/-- One error kind per distinct `raise ValueError` site of
`PolygonDescription`'s validators, named as in the spec's taxonomy. -/
inductive PolygonError : Type
  | TooFewPoints
  | NotClosed
  | DuplicateVertex
  | SelfIntersecting
deriving DecidableEq, Repr

/-- The validation pipeline a `PolygonDescription.coordinates` value
passes through: `validate_coordinates` (the `len(v) < 4` field check)
followed by `check_polygon_validity` (closure, `len(set(...))`
duplicate check, self-intersection), in source order; the first
failing check raises.  Success returns the coordinates unchanged. -/
def validate_polygon (coordinates : List Point) : Except PolygonError (List Point) :=
  if coordinates.length < 4 then .error .TooFewPoints
  else if coordinates.headD (0, 0) ≠ coordinates.getLastD (0, 0) then .error .NotClosed
  else if coordinates.dropLast.dedup.length ≠ coordinates.dropLast.length then
    .error .DuplicateVertex
  else if has_self_intersections coordinates then .error .SelfIntersecting
  else .ok coordinates

/-- The tagged union `Description = Union[TextDescription,
PolygonDescription, PointDescription]`, discriminated by the `type`
field. -/
inductive Description : Type
  | text (t : String)
  | polygon (coordinates : List Point) (t : String)
  | point (coordinates : Point) (t : String)
deriving DecidableEq, Repr

/-- `isinstance(desc, TextDescription)`. -/
def Description.isText : Description → Bool
  | .text _ => true
  | _ => false

/-- Parsing a raw descriptor into its variant: only the polygon
variant has validators (`validate_coordinates` and
`check_polygon_validity`); text and point descriptors carry no
geometric checks. -/
def validate_description : Description → Except PolygonError Description
  | .polygon cs t =>
      match validate_polygon cs with
      | .ok v => .ok (.polygon v t)
      | .error e => .error e
  | d => .ok d

/-- Error kinds of collection-level validation: a member's polygon
error, or the `check_single_text_description` rejection. -/
inductive CollectionError : Type
  | MemberError (e : PolygonError)
  | TooManyTextDescriptors
deriving DecidableEq, Repr

/-- Collection validation as `CreateResearchRequest` performs it:
each member is parsed (its own validators run) while the
`descriptions` field is built, then `check_single_text_description`
rejects when `len([d for d in descriptions if isinstance(d,
TextDescription)]) > 1`. -/
def validate_collection (descriptions : List Description) :
    Except CollectionError (List Description) :=
  match descriptions.findSome? (fun d =>
      match validate_description d with
      | .error e => some e
      | .ok _ => none) with
  | some e => .error (.MemberError e)
  | none =>
      if (descriptions.filter Description.isText).length > 1 then
        .error .TooManyTextDescriptors
      else .ok descriptions

/-- `CreateResearchRequest`'s fields (the `date` field is opaque to
validation and modelled by its ordinal). -/
structure CreateResearchRequest : Type where
  research_name : String
  day_start : Int
  research_comment : Option String
  approval_required : Bool := true
  descriptions : List Description
deriving DecidableEq, Repr

/-- `validate_comment`: `if v is None: return ''` else `return v`. -/
def validate_comment : Option String → Option String
  | none => some ""
  | some v => some v

/-- Validation of a `CreateResearchRequest`: field validators run
first (`validate_comment` on `research_comment`, and each member of
`descriptions` is parsed with its own validators), then the model
validator `check_single_text_description`. -/
def validate_create_research_request (req : CreateResearchRequest) :
    Except CollectionError CreateResearchRequest :=
  match req.descriptions.findSome? (fun d =>
      match validate_description d with
      | .error e => some e
      | .ok _ => none) with
  | some e => .error (.MemberError e)
  | none =>
      let req' := { req with research_comment := validate_comment req.research_comment }
      if (req'.descriptions.filter Description.isText).length > 1 then
        .error .TooManyTextDescriptors
      else .ok req'

/-- The known simple square of the spec's test properties. -/
def squareCoords : List Point :=
  [(0, 0), (0, 1), (1, 1), (1, 0), (0, 0)]

/-- A degenerate closed coordinate list of fewer than 4 points whose
non-closing vertices repeat. -/
def triplePoint : List Point :=
  [(0, 0), (0, 0), (0, 0)]

/-- A 4-point sequence whose first and last points differ. -/
def openQuad : List Point :=
  [(0, 0), (1, 0), (1, 1), (2, 2)]

/-- A closed 4-point sequence with a repeated non-closing vertex. -/
def dupQuad : List Point :=
  [(0, 0), (1, 1), (0, 0), (0, 0)]

/-- A collection with two Text-kind descriptors, every member of
which is individually valid. -/
def twoTextHead : List Description :=
  [.text "a", .point (0, 0) "b"]

/-- A request whose comment is supplied as `None`. -/
def reqNoComment : CreateResearchRequest :=
  ⟨"r", 0, none, true, []⟩

/-- `reqNoComment` after validation: the comment became `''`. -/
def reqNormalized : CreateResearchRequest :=
  ⟨"r", 0, some "", true, []⟩

deriving instance DecidableEq for Except

/-! ### Basic lemmas about the geometry kernel -/

lemma orientation_def (p q r : Point) :
    orientation p q r =
      if (q.2 - p.2) * (r.1 - q.1) - (q.1 - p.1) * (r.2 - q.2) = 0 then 0
      else if (q.2 - p.2) * (r.1 - q.1) - (q.1 - p.1) * (r.2 - q.2) > 0 then 1
      else 2 := rfl

lemma orientation_right_self (p q : Point) : orientation p q q = 0 := by
  rw [orientation_def]
  rw [show (q.2 - p.2) * (q.1 - q.1) - (q.1 - p.1) * (q.2 - q.2) = 0 from by ring]
  simp

lemma orientation_outer_self (p q : Point) : orientation p q p = 0 := by
  rw [orientation_def]
  rw [show (q.2 - p.2) * (p.1 - q.1) - (q.1 - p.1) * (p.2 - q.2) = 0 from by ring]
  simp

lemma on_segment_left_self (p r : Point) : on_segment p p r = true := by
  simp only [on_segment, decide_eq_true_eq, ge_iff_le]
  exact ⟨le_max_left _ _, min_le_left _ _, le_max_left _ _, min_le_left _ _⟩

lemma on_segment_right_self (p r : Point) : on_segment p r r = true := by
  simp only [on_segment, decide_eq_true_eq, ge_iff_le]
  exact ⟨le_max_right _ _, min_le_right _ _, le_max_right _ _, min_le_right _ _⟩

lemma do_intersect_eq_true_iff (p1 q1 p2 q2 : Point) :
    do_intersect p1 q1 p2 q2 = true ↔
      ((orientation p1 q1 p2 ≠ orientation p1 q1 q2 ∧
        orientation p2 q2 p1 ≠ orientation p2 q2 q1) ∨
       (orientation p1 q1 p2 = 0 ∧ on_segment p1 p2 q1 = true) ∨
       (orientation p1 q1 q2 = 0 ∧ on_segment p1 q2 q1 = true) ∨
       (orientation p2 q2 p1 = 0 ∧ on_segment p2 p1 q2 = true) ∨
       (orientation p2 q2 q1 = 0 ∧ on_segment p2 q1 q2 = true)) := by
  simp only [do_intersect]
  split_ifs with h1 h2 h3 h4 h5 <;> simp_all

/-- Two edges that share the first edge's head with the second edge's
tail (the configuration of every adjacent edge pair of the
self-intersection scan) always count as intersecting. -/
lemma do_intersect_shared_vertex (p q r : Point) : do_intersect p q q r = true :=
  (do_intersect_eq_true_iff p q q r).mpr
    (Or.inr (Or.inl ⟨orientation_right_self p q, on_segment_right_self p q⟩))

/-- The scan's `i = 0`, `j = 1` iteration compares the adjacent edges
`(coords[0], coords[1])` and `(coords[1], coords[2])`, which share the
vertex `coords[1]`, so the scan always reports an intersection as soon
as the loops are non-empty. -/
lemma has_self_intersections_of_length (coords : List Point)
    (h : 4 ≤ coords.length) : has_self_intersections coords = true := by
  simp only [has_self_intersections]
  rw [List.any_eq_true]
  refine ⟨0, List.mem_range.mpr (by omega), ?_⟩
  rw [List.any_eq_true]
  refine ⟨1, List.mem_range'_1.mpr (by omega), ?_⟩
  exact do_intersect_shared_vertex _ _ _

/-- Consequence: `check_polygon_validity` raises on every coordinate
list that reaches its self-intersection check, so polygon validation
never succeeds. -/
lemma validate_polygon_ne_ok (coords : List Point) :
    (validate_polygon coords).isOk = false := by
  unfold validate_polygon
  split_ifs with h1 h2 h3 h4
  · rfl
  · rfl
  · rfl
  · rfl
  · exact absurd (has_self_intersections_of_length coords (by omega)) h4

/-! ### Claim theorems -/

/-- C1: the spec requires the known simple square
`[(0,0),(0,1),(1,1),(1,0),(0,0)]` to validate successfully, but the
code rejects it: the self-intersection scan flags the adjacent edge
pair sharing vertex `(0,1)`, so validation returns the
self-intersection error instead of succeeding. -/
theorem C1_square_rejected :
    validate_polygon squareCoords = .error .SelfIntersecting := by
  unfold validate_polygon
  rw [if_neg (by decide), if_neg (by decide), if_neg (by decide),
    if_pos (has_self_intersections_of_length squareCoords (by decide))]

/-- C2: for every coordinate list of length at least 4,
`has_self_intersections` returns true (the scan compares adjacent
edges, which always touch at their shared vertex), and consequently
polygon validation never returns a success value. -/
theorem C2_scan_always_positive (coords : List Point) (h : 4 ≤ coords.length) :
    has_self_intersections coords = true ∧ (validate_polygon coords).isOk = false :=
  ⟨has_self_intersections_of_length coords h, validate_polygon_ne_ok coords⟩

theorem C2_scan_always_positive_witness :
    4 ≤ squareCoords.length ∧
    (has_self_intersections squareCoords = true ∧
     (validate_polygon squareCoords).isOk = false) :=
  ⟨by decide, C2_scan_always_positive squareCoords (by decide)⟩

/-- C3: `do_intersect` reports an intersection for every pair of
segments in degenerate collinear contact: whenever the segments share
an endpoint, or an endpoint of one segment lies on the other segment
(collinear with it and inside its bounding box — which covers both
touching-at-an-endpoint and partial collinear overlap), the test
returns true. -/
theorem C3_touching_is_intersecting (p1 q1 p2 q2 : Point)
    (h : (p1 = p2 ∨ p1 = q2 ∨ q1 = p2 ∨ q1 = q2) ∨
         ((orientation p1 q1 p2 = 0 ∧ on_segment p1 p2 q1 = true) ∨
          (orientation p1 q1 q2 = 0 ∧ on_segment p1 q2 q1 = true) ∨
          (orientation p2 q2 p1 = 0 ∧ on_segment p2 p1 q2 = true) ∨
          (orientation p2 q2 q1 = 0 ∧ on_segment p2 q1 q2 = true))) :
    do_intersect p1 q1 p2 q2 = true := by
  apply (do_intersect_eq_true_iff p1 q1 p2 q2).mpr
  rcases h with (h | h | h | h) | h
  · subst h
    exact Or.inr (Or.inr (Or.inr (Or.inl
      ⟨orientation_outer_self p1 q2, on_segment_left_self p1 q2⟩)))
  · subst h
    exact Or.inr (Or.inr (Or.inr (Or.inl
      ⟨orientation_right_self p2 p1, on_segment_right_self p2 p1⟩)))
  · subst h
    exact Or.inr (Or.inl ⟨orientation_right_self p1 q1, on_segment_right_self p1 q1⟩)
  · subst h
    exact Or.inr (Or.inr (Or.inr (Or.inr
      ⟨orientation_right_self p2 q1, on_segment_right_self p2 q1⟩)))
  · exact Or.inr h

theorem C3_touching_is_intersecting_witness :
    ((((0, 0) : Point) = (1, 0) ∨ (((0, 0) : Point) = (1, 1)) ∨
      (((1, 0) : Point) = (1, 0)) ∨ (((1, 0) : Point) = (1, 1))) ∨
     ((orientation (0, 0) (1, 0) (1, 0) = 0 ∧ on_segment (0, 0) (1, 0) (1, 0) = true) ∨
      (orientation (0, 0) (1, 0) (1, 1) = 0 ∧ on_segment (0, 0) (1, 1) (1, 0) = true) ∨
      (orientation (1, 0) (1, 1) (0, 0) = 0 ∧ on_segment (1, 0) (0, 0) (1, 1) = true) ∨
      (orientation (1, 0) (1, 1) (1, 0) = 0 ∧ on_segment (1, 0) (1, 0) (1, 1) = true))) ∧
    do_intersect (0, 0) (1, 0) (1, 0) (1, 1) = true :=
  ⟨Or.inl (Or.inr (Or.inr (Or.inl rfl))),
   C3_touching_is_intersecting (0, 0) (1, 0) (1, 0) (1, 1)
     (Or.inl (Or.inr (Or.inr (Or.inl rfl))))⟩

/-- C4: every input of fewer than 4 points fails with the
too-few-points error, before any other check runs. -/
theorem C4_too_few_points (coords : List Point) (h : coords.length < 4) :
    validate_polygon coords = .error .TooFewPoints := by
  unfold validate_polygon
  rw [if_pos h]

theorem C4_too_few_points_witness :
    triplePoint.length < 4 ∧ validate_polygon triplePoint = .error .TooFewPoints :=
  ⟨by decide, C4_too_few_points triplePoint (by decide)⟩

/-- C5: every sequence of at least 4 points whose first point differs
from its last fails with the not-closed error. -/
theorem C5_not_closed (coords : List Point) (h4 : 4 ≤ coords.length)
    (hne : coords.headD (0, 0) ≠ coords.getLastD (0, 0)) :
    validate_polygon coords = .error .NotClosed := by
  unfold validate_polygon
  rw [if_neg (by omega), if_pos hne]

theorem C5_not_closed_witness :
    (4 ≤ openQuad.length ∧ openQuad.headD (0, 0) ≠ openQuad.getLastD (0, 0)) ∧
    validate_polygon openQuad = .error .NotClosed :=
  ⟨⟨by decide, by decide⟩, C5_not_closed openQuad (by decide) (by decide)⟩

/-- C6 counterexample: the claim has no minimum-length hypothesis, but
the closed list `[(0,0),(0,0),(0,0)]`, whose non-closing vertices
repeat, is rejected with the too-few-points error rather than the
duplicate-vertex error. -/
theorem C6_counterexample :
    triplePoint.headD (0, 0) = triplePoint.getLastD (0, 0) ∧
    triplePoint.dropLast.dedup.length ≠ triplePoint.dropLast.length ∧
    validate_polygon triplePoint ≠ .error .DuplicateVertex := by
  refine ⟨by decide, by decide, by decide⟩

/-- C6 (amended): every closed sequence of at least 4 points with a
repeated point among the vertices excluding the final closing
duplicate fails with the duplicate-vertex error. -/
theorem C6_duplicate_vertex (coords : List Point) (h4 : 4 ≤ coords.length)
    (hcl : coords.headD (0, 0) = coords.getLastD (0, 0))
    (hdup : coords.dropLast.dedup.length ≠ coords.dropLast.length) :
    validate_polygon coords = .error .DuplicateVertex := by
  unfold validate_polygon
  rw [if_neg (by omega), if_neg (not_not_intro hcl), if_pos hdup]

theorem C6_duplicate_vertex_witness :
    (4 ≤ dupQuad.length ∧ dupQuad.headD (0, 0) = dupQuad.getLastD (0, 0) ∧
     dupQuad.dropLast.dedup.length ≠ dupQuad.dropLast.length) ∧
    validate_polygon dupQuad = .error .DuplicateVertex :=
  ⟨⟨by decide, by decide, by decide⟩,
   C6_duplicate_vertex dupQuad (by decide) (by decide) (by decide)⟩

/-- C8: the orientation classification is invariant under
simultaneous translation of its three argument points. -/
theorem C8_orientation_translation_invariant (px py qx qy rx ry dx dy : ℚ) :
    orientation (px + dx, py + dy) (qx + dx, qy + dy) (rx + dx, ry + dy) =
      orientation (px, py) (qx, qy) (rx, ry) := by
  rw [orientation_def, orientation_def]
  show (if (qy + dy - (py + dy)) * (rx + dx - (qx + dx)) -
          (qx + dx - (px + dx)) * (ry + dy - (qy + dy)) = 0 then 0
        else if (qy + dy - (py + dy)) * (rx + dx - (qx + dx)) -
          (qx + dx - (px + dx)) * (ry + dy - (qy + dy)) > 0 then 1 else 2) =
       (if (qy - py) * (rx - qx) - (qx - px) * (ry - qy) = 0 then 0
        else if (qy - py) * (rx - qx) - (qx - px) * (ry - qy) > 0 then 1 else 2)
  rw [show (qy + dy - (py + dy)) * (rx + dx - (qx + dx)) -
      (qx + dx - (px + dx)) * (ry + dy - (qy + dy)) =
      (qy - py) * (rx - qx) - (qx - px) * (ry - qy) from by ring]

/-- C9: polygon validation is a pure function of its input, so
running it twice on the same vertex sequence yields the same result
both times. -/
theorem C9_deterministic (coords : List Point) :
    validate_polygon coords = validate_polygon coords := rfl

/-- Members that all parse successfully contribute no error to the
collection-level scan. -/
lemma findSome?_validate_eq_none (l : List Description)
    (hl : l.all (fun d => decide (validate_description d = .ok d)) = true) :
    l.findSome? (fun d =>
      match validate_description d with
      | .error e => some e
      | .ok _ => none) = none := by
  rw [List.findSome?_eq_none_iff]
  intro d hd
  rw [List.all_eq_true] at hl
  rw [decide_eq_true_eq.mp (hl d hd)]

/-- C7: a collection whose members are all individually valid and
which contains exactly two Text-kind descriptors is rejected with the
too-many-text-descriptors error, and the same collection with one of
the Text descriptors removed validates successfully. -/
theorem C7_single_text_rule (l1 l2 : List Description) (t : String)
    (hvalid : (l1 ++ Description.text t :: l2).all
      (fun d => decide (validate_description d = .ok d)) = true)
    (hcount : ((l1 ++ Description.text t :: l2).filter Description.isText).length = 2) :
    validate_collection (l1 ++ Description.text t :: l2) =
      .error .TooManyTextDescriptors ∧
    validate_collection (l1 ++ l2) = .ok (l1 ++ l2) := by
  have hsplit : ((l1 ++ Description.text t :: l2).filter Description.isText).length =
      (l1.filter Description.isText).length + (l2.filter Description.isText).length + 1 := by
    simp [List.filter_append, List.filter_cons, Description.isText]
    omega
  have hv2 : (l1 ++ l2).all (fun d => decide (validate_description d = .ok d)) = true := by
    rw [List.all_eq_true] at hvalid ⊢
    intro d hd
    apply hvalid
    rcases List.mem_append.mp hd with h | h
    · exact List.mem_append.mpr (Or.inl h)
    · exact List.mem_append.mpr (Or.inr (List.mem_cons_of_mem _ h))
  have h12 : ((l1 ++ l2).filter Description.isText).length =
      (l1.filter Description.isText).length + (l2.filter Description.isText).length := by
    simp [List.filter_append]
  constructor
  · unfold validate_collection
    rw [findSome?_validate_eq_none _ hvalid, if_pos (by omega)]
  · unfold validate_collection
    rw [findSome?_validate_eq_none _ hv2, if_neg (by omega)]

theorem C7_single_text_rule_witness :
    ((twoTextHead ++ Description.text "c" :: []).all
       (fun d => decide (validate_description d = .ok d)) = true ∧
     ((twoTextHead ++ Description.text "c" :: []).filter Description.isText).length = 2) ∧
    (validate_collection (twoTextHead ++ Description.text "c" :: []) =
       .error .TooManyTextDescriptors ∧
     validate_collection (twoTextHead ++ []) = .ok (twoTextHead ++ [])) :=
  ⟨⟨by decide, by decide⟩,
   C7_single_text_rule twoTextHead [] "c" (by decide) (by decide)⟩

/-- C10: a successfully validated request never carries a missing
comment: a comment supplied as `None` has been replaced by the empty
string. -/
theorem C10_comment_normalized (req res : CreateResearchRequest)
    (h : validate_create_research_request req = .ok res) :
    res.research_comment ≠ none ∧
    (req.research_comment = none → res.research_comment = some "") := by
  unfold validate_create_research_request at h
  split at h
  · exact absurd h (by simp)
  · dsimp only at h
    split at h
    · exact absurd h (by simp)
    · injection h with h
      subst h
      cases hr : req.research_comment <;> simp [validate_comment, hr]

theorem C10_comment_normalized_witness :
    validate_create_research_request reqNoComment = .ok reqNormalized ∧
    (reqNormalized.research_comment ≠ none ∧
     (reqNoComment.research_comment = none →
      reqNormalized.research_comment = some "")) :=
  ⟨by decide, C10_comment_normalized reqNoComment reqNormalized (by decide)⟩
